import Mathlib

/-!
# Will.IAM — verification of the authorization engine

Shallow embedding of the Will.IAM service-account / permission code:
the `usecases` service-account component, the API auth middleware, the
service-account handlers, and the embeddable remote-check middleware
(`pkg/http/middleware.go`).  The `models`, `errors` and `repositories`
packages are not part of the sources; definitions taken from them are
modelled from the specification and marked `Modelled from the spec:`.
-/

deriving instance DecidableEq for Except

namespace WillIAM

/-- Modelled from the spec: the error taxonomy of the `errors` package
(§7) — malformed permission strings, entity-not-found lookups, the
"missing all required grants" insufficient-permission error, storage
failures, and a Go runtime panic (index out of range), which is not an
`error` value but must be distinguishable in the model. -/
inductive Err where
  | entityNotFound : Err
  | malformedPermission : String → Err
  | userDoesntHaveAllPermissions : Err
  | storageFailure : String → Err
  | goPanic : String → Err
  deriving DecidableEq, Repr

/-- Modelled from the spec: `ownershipLevel` is drawn from a small
ordered enum, minimally `{Lender < Owner}` (§3, §6). -/
inductive OwnershipLevel where
  | owner : OwnershipLevel
  | lender : OwnershipLevel
  deriving DecidableEq, Repr

/-- `Owner` is the maximal level and implies every lesser level on the
same scope (§3): `a.ge b` is the `>=` comparison of the enum ordering. -/
def OwnershipLevel.ge : OwnershipLevel → OwnershipLevel → Bool
  | .owner, _ => true
  | .lender, .lender => true
  | .lender, .owner => false

/-- Modelled from the spec: the wire names of the two ownership levels
(§6: `ownershipLevel ∈ {Owner, Lender}`). -/
def OwnershipLevel.str : OwnershipLevel → String
  | .owner => "Owner"
  | .lender => "Lender"

/-- Modelled from the spec: recognize an ownership-level wire name. -/
def parseOwnershipLevel : String → Option OwnershipLevel
  | "Owner" => some .owner
  | "Lender" => some .lender
  | _ => none

/-- Go `strings.Split` on a one-character separator, over the character
list: every occurrence of the separator ends a field. -/
def splitOnCharList (sep : Char) : List Char → List (List Char)
  | [] => [[]]
  | c :: cs =>
      if c = sep then [] :: splitOnCharList sep cs
      else
        match splitOnCharList sep cs with
        | [] => [[c]]
        | t :: ts => (c :: t) :: ts

/-- Go `strings.Split` on a two-character separator, over the character
list: leftmost-first, non-overlapping occurrences end fields. -/
def split2CharList (a b : Char) : List Char → List (List Char)
  | [] => [[]]
  | [c] => [[c]]
  | c :: d :: rest =>
      if c = a ∧ d = b then [] :: split2CharList a b rest
      else
        match split2CharList a b (d :: rest) with
        | [] => [[c]]
        | t :: ts => (c :: t) :: ts

/-- Go `strings.Split(s, sep)` for a one-character `sep`. -/
def goSplitChar (sep : Char) (s : String) : List String :=
  (splitOnCharList sep s.data).map String.mk

/-- Go `strings.Split(s, sep)` for a two-character `sep` (the `::`
delimiter of the permission codec). -/
def goSplit2 (a b : Char) (s : String) : List String :=
  (split2CharList a b s.data).map String.mk

/-- Modelled from the spec: `models.Permission` — (roleID, service,
ownershipLevel, action, resource, optional alias), attached to exactly
one role (§3). -/
structure Permission where
  roleID : String
  service : String
  ownershipLevel : OwnershipLevel
  action : String
  resource : String
  aliasStr : String
  deriving DecidableEq, Repr

/-- Modelled from the spec: a Permission renders to the canonical string
`service::ownershipLevel::action::resource` (§4.1 Serialize). -/
def Permission.String (p : Permission) : String :=
  p.service ++ "::" ++ p.ownershipLevel.str ++ "::" ++ p.action ++ "::" ++ p.resource

/-- Modelled from the spec: `models.BuildPermission` splits on `::` and
fails with a `MalformedPermissionError` unless exactly four non-empty
fields are produced and `ownershipLevel` is a recognized enum value
(§4.1 Parse). -/
def BuildPermission (s : String) : Except Err Permission :=
  match goSplit2 ':' ':' s with
  | [sv, ol, ac, re] =>
      if sv = "" || ol = "" || ac = "" || re = "" then
        .error (.malformedPermission s)
      else
        match parseOwnershipLevel ol with
        | some lvl =>
            .ok { roleID := "", service := sv, ownershipLevel := lvl,
                  action := ac, resource := re, aliasStr := "" }
        | none => .error (.malformedPermission s)
  | _ => .error (.malformedPermission s)

/-- Modelled from the spec: `models.BuildPermissions` applies
`BuildPermission` over a sequence and fails on the first error,
short-circuiting (§4.1). -/
def BuildPermissions : List String → Except Err (List Permission)
  | [] => .ok []
  | s :: rest => do
      let p ← BuildPermission s
      let ps ← BuildPermissions rest
      .ok (p :: ps)

/-- Modelled from the spec: resource match (§4.1) — `h.resource == "*"`,
or exact equality, or `h.resource` a proper path-prefix ancestor of the
requested resource (requested begins with `h.resource` immediately
followed by the `/` delimiter). -/
def resourceMatch (held requested : String) : Bool :=
  held = "*" || held = requested ||
  List.isPrefixOf (held ++ "/").data requested.data

/-- Modelled from the spec: one held permission satisfies a requested one
iff service and action match exactly, the held ownership level is `>=`
the requested one, and the resources match (§4.1). -/
def permissionSatisfies (h requested : Permission) : Bool :=
  h.service = requested.service &&
  h.action = requested.action &&
  h.ownershipLevel.ge requested.ownershipLevel &&
  resourceMatch h.resource requested.resource

/-- Modelled from the spec: `Permission.IsPresent` — a requested
permission is satisfied by a set of held permissions iff at least one
held permission satisfies it; pure allow-list, no deny rules (§4.1). -/
def Permission.IsPresent (requested : Permission) (held : List Permission) : Bool :=
  held.any (fun h => permissionSatisfies h requested)

/-- Force a permission's ownership level to `Owner` (the clone-and-raise
step of `HasAllOwnerPermissions`). -/
def Permission.asOwner (p : Permission) : Permission :=
  { p with ownershipLevel := .owner }

/-- Modelled from the spec: the wire names of the two authentication
types; `Validate` reports "must be oauth2 or keypair" (§3).  The Go
type is a string whose zero value is the empty string. -/
def AuthenticationTypes.OAuth2 : String := "oauth2"

/-- Modelled from the spec: the key-pair authentication type name. -/
def AuthenticationTypes.KeyPair : String := "keypair"

/-- Modelled from the spec: a recognized `AuthenticationType` is
`oauth2` or `keypair` (§3, `Validate`). -/
def authenticationTypeValid (t : String) : Bool :=
  t = AuthenticationTypes.OAuth2 || t = AuthenticationTypes.KeyPair

/-- Modelled from the spec: `models.ServiceAccount` — id, display name,
email, picture URL, authentication type, key pair, and `baseRoleID`
referencing its always-present implicit Role (§3).  Omitted fields of a
Go struct literal take the zero value, the empty string. -/
structure ServiceAccount where
  id : String := ""
  name : String := ""
  email : String := ""
  picture : String := ""
  authenticationType : String := ""
  baseRoleID : String := ""
  keyID : String := ""
  keySecret : String := ""
  deriving DecidableEq, Repr

/-- Modelled from the spec: `models.BuildOAuth2ServiceAccount` — an
OAuth2-typed account with the given name and email (§4.3 Create). -/
def BuildOAuth2ServiceAccount (name email : String) : ServiceAccount :=
  { name := name, email := email,
    authenticationType := AuthenticationTypes.OAuth2 }

/-- Modelled from the spec: `models.BuildKeyPairServiceAccount` — a
key-pair-typed account with a generated key pair (key generation is
random in Go; the model builds them from the name). -/
def BuildKeyPairServiceAccount (name : String) : ServiceAccount :=
  { name := name, authenticationType := AuthenticationTypes.KeyPair,
    keyID := "key-id:" ++ name, keySecret := "key-secret:" ++ name }

/-- Modelled from the spec: `models.Role` — id, name, `isBaseRole`
flag (§3). -/
structure Role where
  id : String := ""
  name : String := ""
  isBaseRole : Bool := false
  deriving DecidableEq, Repr

/-- Modelled from the spec: `models.RoleBinding` — many-to-many edge
(serviceAccountID, roleID) (§3). -/
structure RoleBinding where
  serviceAccountID : String
  roleID : String
  deriving DecidableEq, Repr

/-- Modelled from the spec: `models.AccessTokenAuth` — transient result
of OAuth2 authentication (§3). -/
structure AccessTokenAuth where
  serviceAccountID : String
  accessToken : String
  email : String
  deriving DecidableEq, Repr

/-- Modelled from the spec: the relational storage state behind the
repositories collaborator (§6) — rows of the four entities, a fresh-id
supply standing for UUID/serial id generation, and an injected-failure
set `failPerms`: permission strings whose `Permissions.Create` fails,
modelling a storage failure mid-transaction (§5). -/
structure State where
  serviceAccounts : List ServiceAccount := []
  roles : List Role := []
  roleBindings : List RoleBinding := []
  permissions : List Permission := []
  nextID : Nat := 0
  failPerms : List String := []
  deriving DecidableEq, Repr

/-- Draw a fresh id from the supply. -/
def State.fresh (s : State) : String × State :=
  ("id-" ++ toString s.nextID, { s with nextID := s.nextID + 1 })

namespace Repo

/-- Modelled from the spec: `repositories.Roles.Create` — insert a role,
assigning it a fresh id. -/
def rolesCreate (r : Role) (s : State) : Role × State :=
  let (newID, s₁) := s.fresh
  let r₁ := { r with id := newID }
  (r₁, { s₁ with roles := s₁.roles ++ [r₁] })

/-- Modelled from the spec: `repositories.ServiceAccounts.Create` —
insert the account row as given. -/
def serviceAccountsCreate (sa : ServiceAccount) (s : State) : State :=
  { s with serviceAccounts := s.serviceAccounts ++ [sa] }

/-- Modelled from the spec: `repositories.Roles.Bind` — insert a
role-binding edge. -/
def rolesBind (b : RoleBinding) (s : State) : State :=
  { s with roleBindings := s.roleBindings ++ [b] }

/-- Modelled from the spec: `repositories.Permissions.Create` — insert a
permission row; fails with a storage error when the permission string is
in the injected-failure set. -/
def permissionsCreate (p : Permission) (s : State) : Except Err State :=
  if p.String ∈ s.failPerms then
    .error (.storageFailure ("permission create failed: " ++ p.String))
  else
    .ok { s with permissions := s.permissions ++ [p] }

/-- Modelled from the spec: `repositories.ServiceAccounts.Get` — lookup
by id, `EntityNotFoundError` when absent (§7). -/
def serviceAccountsGet (saID : String) (s : State) : Except Err ServiceAccount :=
  match s.serviceAccounts.find? (fun sa => sa.id = saID) with
  | some sa => .ok sa
  | none => .error .entityNotFound

/-- Modelled from the spec: `repositories.ServiceAccounts.Update` —
replace the row with the same id. -/
def serviceAccountsUpdate (sa : ServiceAccount) (s : State) : Except Err State :=
  if s.serviceAccounts.any (fun x => x.id = sa.id) then
    .ok { s with serviceAccounts :=
            s.serviceAccounts.map (fun x => if x.id = sa.id then sa else x) }
  else
    .error .entityNotFound

/-- Modelled from the spec: `repositories.ServiceAccounts.ForEmail` —
lookup by email, `EntityNotFoundError` when absent (§4.4). -/
def serviceAccountsForEmail (email : String) (s : State) : Except Err ServiceAccount :=
  match s.serviceAccounts.find? (fun sa => sa.email = email) with
  | some sa => .ok sa
  | none => .error .entityNotFound

/-- Modelled from the spec: `repositories.ServiceAccounts.ForKeyPair` —
lookup by exact (keyID, keySecret) match, `EntityNotFoundError` when no
match (§4.4). -/
def serviceAccountsForKeyPair (keyID keySecret : String) (s : State) :
    Except Err ServiceAccount :=
  match s.serviceAccounts.find?
      (fun sa => sa.keyID = keyID && sa.keySecret = keySecret) with
  | some sa => .ok sa
  | none => .error .entityNotFound

/-- Is `roleID` the id of a base role in state `s`? -/
def isBaseRoleID (roleID : String) (s : State) : Bool :=
  s.roles.any (fun r => r.id = roleID && r.isBaseRole)

/-- Modelled from the spec: `repositories.ServiceAccounts.DropBindings`
— drop all non-base role bindings of the account; the base-role binding
is never dropped (§4.3 Update step 2). -/
def serviceAccountsDropBindings (saID : String) (s : State) : State :=
  let keep := fun (b : RoleBinding) =>
    !(b.serviceAccountID = saID) || isBaseRoleID b.roleID s
  { s with roleBindings := s.roleBindings.filter keep }

/-- Modelled from the spec: `repositories.Roles.DropPermissions` — drop
all permissions attached to the role (§4.3 Update step 3). -/
def rolesDropPermissions (roleID : String) (s : State) : State :=
  { s with permissions := s.permissions.filter (fun p => !(p.roleID = roleID)) }

/-- Modelled from the spec: `repositories.Permissions.ForRole` — the
permissions attached to a role (§4.2). -/
def permissionsForRole (roleID : String) (s : State) : List Permission :=
  s.permissions.filter (fun p => p.roleID = roleID)

/-- Modelled from the spec: `repositories.Permissions.ForServiceAccount`
— the union of permissions attached to the account's base role and to
every role reachable via its RoleBindings (§4.2 `GetPermissions`). -/
def permissionsForServiceAccount (saID : String) (s : State) : List Permission :=
  s.permissions.filter (fun p =>
    s.roleBindings.any (fun b => b.serviceAccountID = saID && b.roleID = p.roleID) ||
    s.serviceAccounts.any (fun sa => sa.id = saID && sa.baseRoleID = p.roleID))

/-- Modelled from the spec: `WithPGTx` — atomic multi-write execution:
any failure aborts the whole transaction leaving prior state unchanged
(§5, §6). -/
def WithPGTx (fn : State → Except Err State) (s : State) : Except Err Unit × State :=
  match fn s with
  | .ok s₁ => (.ok (), s₁)
  | .error e => (.error e, s)

end Repo

/-! ## usecases/service_accounts.go (src/unnamed/part_001) -/

/-- `ServiceAccountWithNested` — the required data to create/update a
service account with nested roles and permissions.  The JSON
`permissionsAliases` map is modelled as an association list. -/
structure ServiceAccountWithNested where
  id : String := ""
  name : String := ""
  email : String := ""
  picture : String := ""
  permissionsStrings : List String := []
  permissionsAliases : List (String × String) := []
  permissions : List Permission := []
  rolesIDs : List String := []
  authenticationType : String := ""
  deriving DecidableEq, Repr

/-- `ServiceAccountWithNested.Validate` — name required; authentication
type must be oauth2 or keypair; email required for OAuth2 accounts.
Returns the field→message error list of the `models.Validation`. -/
def ServiceAccountWithNested.Validate (sawn : ServiceAccountWithNested) :
    List (String × String) :=
  (if sawn.name = "" then [("name", "required")] else []) ++
  (if !authenticationTypeValid sawn.authenticationType then
    [("authenticatonType", "must be oauth2 or keypair")] else []) ++
  (if sawn.authenticationType = AuthenticationTypes.OAuth2 && sawn.email = "" then
    [("email", "required")] else [])

/-- `models.Validation.Valid` — no field errors. -/
def validationValid (v : List (String × String)) : Bool :=
  v.isEmpty

/-- `createServiceAccount` — assign a fresh id (uuid in Go), create the
base role named `service-account:<id>`, set `baseRoleID`, insert the
account, and bind it to its base role.  Returns the account as mutated
by the Go code. -/
def createServiceAccount (sa : ServiceAccount) (s : State) :
    Except Err (ServiceAccount × State) :=
  let (newID, s₁) := s.fresh
  let sa₁ := { sa with id := newID }
  let (r, s₂) :=
    Repo.rolesCreate { name := "service-account:" ++ newID, isBaseRole := true } s₁
  let sa₂ := { sa₁ with baseRoleID := r.id }
  let s₃ := Repo.serviceAccountsCreate sa₂ s₂
  let s₄ := Repo.rolesBind { roleID := r.id, serviceAccountID := sa₂.id } s₃
  .ok (sa₂, s₄)

/-- `serviceAccounts.Create` — `createServiceAccount` wrapped in a
transaction (`WithPGTx`); the Go caller observes the mutated account. -/
def ServiceAccounts.Create (sa : ServiceAccount) (s : State) :
    Except Err (ServiceAccount × State) :=
  createServiceAccount sa s

/-- The `for i := range sawn.RolesIDs { repo.Roles.Bind(...) }` loop of
`CreateWithNested`. -/
def bindRolesLoop (saID : String) : List String → State → Except Err State
  | [], s => .ok s
  | roleID :: rest, s =>
      bindRolesLoop saID rest
        (Repo.rolesBind { serviceAccountID := saID, roleID := roleID } s)

/-- The `for i := range sawn.Permissions { ...; repo.Permissions.Create }`
loop: each permission's `RoleID` is set to the base role before insert;
the loop stops at the first error. -/
def createPermissionsLoop (baseRoleID : String) :
    List Permission → State → Except Err State
  | [], s => .ok s
  | p :: rest, s =>
      match Repo.permissionsCreate { p with roleID := baseRoleID } s with
      | .ok s₁ => createPermissionsLoop baseRoleID rest s₁
      | .error e => .error e

/-- `serviceAccounts.CreateWithNested` — inside one `WithPGTx`
transaction: build and create the account (OAuth2 or KeyPair; any other
authentication type leaves the Go `sa` pointer nil and the subsequent
`sawn.ID = sa.ID` dereference panics), bind the requested roles, then
attach the inline permissions to the new base role. -/
def CreateWithNested (sawn : ServiceAccountWithNested) (s : State) :
    Except Err Unit × State :=
  Repo.WithPGTx (fun s₀ =>
    let saOpt : Option ServiceAccount :=
      if sawn.authenticationType = AuthenticationTypes.OAuth2 then
        some (BuildOAuth2ServiceAccount sawn.name sawn.email)
      else if sawn.authenticationType = AuthenticationTypes.KeyPair then
        some (BuildKeyPairServiceAccount sawn.name)
      else none
    match saOpt with
    | none => .error (.goPanic "nil ServiceAccount dereference in CreateWithNested")
    | some sa₀ =>
      match createServiceAccount sa₀ s₀ with
      | .error e => .error e
      | .ok (sa, s₁) =>
        match bindRolesLoop sa.id sawn.rolesIDs s₁ with
        | .error e => .error e
        | .ok s₂ => createPermissionsLoop sa.baseRoleID sawn.permissions s₂) s

/-- The rebind loop of `UpdateWithNested`: bind each requested role,
skipping the account's base role. -/
def bindRolesSkipBaseLoop (baseRoleID saID : String) :
    List String → State → Except Err State
  | [], s => .ok s
  | roleID :: rest, s =>
      if roleID = baseRoleID then bindRolesSkipBaseLoop baseRoleID saID rest s
      else
        bindRolesSkipBaseLoop baseRoleID saID rest
          (Repo.rolesBind { serviceAccountID := saID, roleID := roleID } s)

/-- `serviceAccounts.UpdateWithNested` — inside one `WithPGTx`
transaction: fetch the account, set `sa.Name = sawn.Name` and
`sa.Email = sawn.Name` (so the source stores the submitted *name* in
the email column), update the row, drop the non-base role bindings,
rebind the requested roles (skipping the base role), drop the base
role's permissions and recreate them from the submitted set. -/
def UpdateWithNested (sawn : ServiceAccountWithNested) (s : State) :
    Except Err Unit × State :=
  Repo.WithPGTx (fun s₀ =>
    match Repo.serviceAccountsGet sawn.id s₀ with
    | .error e => .error e
    | .ok sa =>
      let sa₁ := { sa with name := sawn.name, email := sawn.name }
      match Repo.serviceAccountsUpdate sa₁ s₀ with
      | .error e => .error e
      | .ok s₁ =>
        let s₂ := Repo.serviceAccountsDropBindings sawn.id s₁
        match bindRolesSkipBaseLoop sa₁.baseRoleID sa₁.id sawn.rolesIDs s₂ with
        | .error e => .error e
        | .ok s₃ =>
          let s₄ := Repo.rolesDropPermissions sa₁.baseRoleID s₃
          createPermissionsLoop sa₁.baseRoleID sawn.permissions s₄) s

/-- `serviceAccounts.GetPermissions` — delegate to
`Permissions.ForServiceAccount`. -/
def GetPermissions (saID : String) (s : State) : Except Err (List Permission) :=
  .ok (Repo.permissionsForServiceAccount saID s)

/-- `serviceAccounts.HasPermissions` — one boolean per requested
permission, each `IsPresent` against the aggregated set; never fails
due to "no" answers. -/
def HasPermissions (saID : String) (ps : List Permission) (s : State) :
    Except Err (List Bool) :=
  match GetPermissions saID s with
  | .error e => .error e
  | .ok saPs => .ok (ps.map (fun p => p.IsPresent saPs))

/-- The early-exit `for i := range has { if !has[i] { return false } }`
loop of `HasAllOwnerPermissions`. -/
def allTrueLoop : List Bool → Bool
  | [] => true
  | b :: rest => if !b then false else allTrueLoop rest

/-- `serviceAccounts.HasAllOwnerPermissions` — clone the requested list
forcing `ownershipLevel = Owner` on every entry (the caller's list is
not mutated), then require all booleans from `HasPermissions`. -/
def HasAllOwnerPermissions (saID : String) (ps : List Permission) (s : State) :
    Except Err Bool :=
  let psCpy := ps.map Permission.asOwner
  match HasPermissions saID psCpy s with
  | .error e => .error e
  | .ok has => .ok (allTrueLoop has)

/-- The role-expansion loop of `HasAllOwnerRolesPermissions`:
`ps = append(ps, rps...)` over `Permissions.ForRole`. -/
def rolesPermissionsConcat (rolesIDs : List String) (s : State) : List Permission :=
  rolesIDs.foldl (fun acc rid => acc ++ Repo.permissionsForRole rid s) []

/-- `serviceAccounts.HasAllOwnerRolesPermissions` — expand each role to
its attached permissions and delegate to `HasAllOwnerPermissions`. -/
def HasAllOwnerRolesPermissions (saID : String) (rolesIDs : List String)
    (s : State) : Except Err Bool :=
  HasAllOwnerPermissions saID (rolesPermissionsConcat rolesIDs s) s

/-- The `{email, accessToken, picture}` result of the external OAuth2
introspection provider (§4.4); the provider call itself is an input of
the model. -/
structure OAuth2AuthResult where
  email : String
  accessToken : String
  picture : String
  deriving DecidableEq, Repr

/-- `serviceAccounts.AuthenticateAccessToken` — delegate verification to
the provider; look the account up by email; on `EntityNotFoundError`
provision a new account via `Create` from a bare struct literal (only
`Name`, `Email`, `Picture` set — `AuthenticationType` is left at the Go
zero value); otherwise best-effort update a changed non-empty picture.
Returns the `AccessTokenAuth` and the possibly-updated state. -/
def AuthenticateAccessToken (providerResult : Except Err OAuth2AuthResult)
    (s : State) : Except Err AccessTokenAuth × State :=
  match providerResult with
  | .error e => (.error e, s)
  | .ok authResult =>
    match Repo.serviceAccountsForEmail authResult.email s with
    | .error .entityNotFound =>
        let sa : ServiceAccount :=
          { name := authResult.email, email := authResult.email,
            picture := authResult.picture }
        (match ServiceAccounts.Create sa s with
        | .error e => (.error e, s)
        | .ok (sa₁, s₁) =>
            (.ok { serviceAccountID := sa₁.id,
                   accessToken := authResult.accessToken,
                   email := authResult.email }, s₁))
    | .error e => (.error e, s)
    | .ok sa =>
        if authResult.picture ≠ "" && authResult.picture ≠ sa.picture then
          let sa₁ := { sa with picture := authResult.picture }
          match Repo.serviceAccountsUpdate sa₁ s with
          | .error e => (.error e, s)
          | .ok s₁ =>
              (.ok { serviceAccountID := sa₁.id,
                     accessToken := authResult.accessToken,
                     email := authResult.email }, s₁)
        else
          (.ok { serviceAccountID := sa.id,
                 accessToken := authResult.accessToken,
                 email := authResult.email }, s)

/-- `serviceAccounts.AuthenticateKeyPair` — look the account up by exact
(keyID, keySecret); a pure read, errors propagate unchanged. -/
def AuthenticateKeyPair (keyID keySecret : String) (s : State) :
    Except Err ServiceAccount :=
  Repo.serviceAccountsForKeyPair keyID keySecret s

/-! ## api/service_accounts_handlers.go -/

/-- Alias lookup in the `permissionsAliases` map. -/
def lookupAlias (aliases : List (String × String)) (k : String) : Option String :=
  (aliases.find? (fun kv => kv.fst = k)).map (fun kv => kv.snd)

/-- The alias-application loop of `processServiceAccountWithNestedFromReq`:
`sawn.Permissions[i].Alias = alias` when `PermissionsStrings[i]` has an
alias in the map. -/
def applyAliases (aliases : List (String × String)) :
    List String → List Permission → List Permission
  | _, [] => []
  | [], ps => ps
  | str :: strs, p :: ps =>
      (match lookupAlias aliases str with
       | some a => { p with aliasStr := a }
       | none => p) :: applyAliases aliases strs ps

/-- `processServiceAccountWithNestedFromReq` — after JSON unmarshal (the
parsed body is the `req` argument; its `permissions` field is never
unmarshaled): require `HasAllOwnerRolesPermissions` on the requested
roles, build the inline permissions from their strings (short-circuit on
malformed), apply aliases, and require `HasAllOwnerPermissions` on them;
reject with `UserDoesntHaveAllPermissionsError` when either check says
no. -/
def processServiceAccountWithNestedFromReq (actorID : String)
    (req : ServiceAccountWithNested) (s : State) :
    Except Err ServiceAccountWithNested :=
  match HasAllOwnerRolesPermissions actorID req.rolesIDs s with
  | .error e => .error e
  | .ok hasRoles =>
    if !hasRoles then .error .userDoesntHaveAllPermissions
    else
      match BuildPermissions req.permissionsStrings with
      | .error e => .error e
      | .ok ps =>
        let ps₁ := applyAliases req.permissionsAliases req.permissionsStrings ps
        match HasAllOwnerPermissions actorID ps₁ s with
        | .error e => .error e
        | .ok has =>
          if !has then .error .userDoesntHaveAllPermissions
          else .ok { req with permissions := ps₁ }

/-- Modelled from the spec: `UserDoesntHaveAllPermissionsError.StatusCode()`
is 403-class (§7, `InsufficientPermissionError`). -/
def userDoesntHaveAllPermissionsStatusCode : Nat := 403

/-- `serviceAccountsCreateHandler` — authorize via
`processServiceAccountWithNestedFromReq` (403 on insufficient
permission, 500 on any other error), validate (422 with field errors),
set the path id, and run `CreateWithNested` (500 on error, 201 on
success).  Returns the HTTP status and the storage state afterward. -/
def serviceAccountsCreateHandler (actorID : String)
    (req : ServiceAccountWithNested) (pathID : String) (s : State) :
    Nat × State :=
  match processServiceAccountWithNestedFromReq actorID req s with
  | .error .userDoesntHaveAllPermissions =>
      (userDoesntHaveAllPermissionsStatusCode, s)
  | .error _ => (500, s)
  | .ok sawn =>
    if !validationValid sawn.Validate then (422, s)
    else
      let sawn₁ := { sawn with id := pathID }
      match CreateWithNested sawn₁ s with
      | (.error _, s₁) => (500, s₁)
      | (.ok _, s₁) => (201, s₁)

/-- `serviceAccountsUpdateHandler` — same authorization and validation
as the create handler, then `UpdateWithNested` (500 on error, 200 on
success). -/
def serviceAccountsUpdateHandler (actorID : String)
    (req : ServiceAccountWithNested) (pathID : String) (s : State) :
    Nat × State :=
  match processServiceAccountWithNestedFromReq actorID req s with
  | .error .userDoesntHaveAllPermissions =>
      (userDoesntHaveAllPermissionsStatusCode, s)
  | .error _ => (500, s)
  | .ok sawn =>
    if !validationValid sawn.Validate then (422, s)
    else
      let sawn₁ := { sawn with id := pathID }
      match UpdateWithNested sawn₁ s with
      | (.error _, s₁) => (500, s₁)
      | (.ok _, s₁) => (200, s₁)

/-! ## api/auth_middleware.go -/

/-- Outcome of the authentication middleware for one request: a
short-circuit response (downstream handler never invoked), the
downstream handler invoked with the resolved service-account id in the
context, or a Go runtime panic. -/
inductive AuthMWOutcome where
  | response : Nat → AuthMWOutcome
  | next : String → AuthMWOutcome
  | goPanic : String → AuthMWOutcome
  deriving DecidableEq, Repr

/-- `authMiddleware` — read the `authorization` header and split on a
single space: an empty header or anything but exactly two parts is 401.
Scheme `KeyPair` splits the credential on `:` (Go indexes `keyPair[1]`
unconditionally, so a credential without a colon panics with an
index-out-of-range) and answers 500 on any `AuthenticateKeyPair` error.
Scheme `Bearer` runs `AuthenticateAccessToken`: `EntityNotFoundError`
is 401, any other error 500.  Any other scheme is 401.  On success the
downstream handler runs with the resolved id. -/
def authMiddleware (header : String)
    (providerResult : Except Err OAuth2AuthResult) (s : State) :
    AuthMWOutcome × State :=
  let parts := goSplitChar ' ' header
  if header = "" || parts.length ≠ 2 then (.response 401, s)
  else
    match parts with
    | scheme :: credential :: _ =>
      if scheme = "KeyPair" then
        match goSplitChar ':' credential with
        | keyID :: keySecret :: _ =>
          (match AuthenticateKeyPair keyID keySecret s with
          | .error _ => (.response 500, s)
          | .ok sa => (.next sa.id, s))
        | _ => (.goPanic "index out of range: keyPair[1]", s)
      else if scheme = "Bearer" then
        match AuthenticateAccessToken providerResult s with
        | (.error .entityNotFound, s₁) => (.response 401, s₁)
        | (.error _, s₁) => (.response 500, s₁)
        | (.ok ata, s₁) => (.next ata.serviceAccountID, s₁)
      else (.response 401, s)
    | _ => (.response 401, s)

/-! ## pkg/http/middleware.go — the embeddable remote-check middleware -/

/-- Upper-case hex digit of a value below 16 (Go `"%02X"`-style byte
escaping in `url.QueryEscape`). -/
def hexDigitChar (n : Nat) : Char :=
  if n < 10 then Char.ofNat (48 + n) else Char.ofNat (55 + n)

/-- The UTF-8 bytes of one character (as naturals). -/
def utf8Bytes (c : Char) : List Nat :=
  let n := c.toNat
  if n < 128 then [n]
  else if n < 2048 then [192 + n / 64, 128 + n % 64]
  else if n < 65536 then
    [224 + n / 4096, 128 + (n / 64) % 64, 128 + n % 64]
  else
    [240 + n / 262144, 128 + (n / 4096) % 64, 128 + (n / 64) % 64,
     128 + n % 64]

/-- Bytes `url.QueryEscape` leaves unescaped: ASCII letters, digits,
and `-`, `_`, `.`, `~`. -/
def byteUnescaped (n : Nat) : Bool :=
  (65 ≤ n && n ≤ 90) || (97 ≤ n && n ≤ 122) || (48 ≤ n && n ≤ 57) ||
  n = 45 || n = 95 || n = 46 || n = 126

/-- Escape one byte as `url.QueryEscape` does: unescaped bytes pass
through, a space becomes `+`, everything else `%XX`. -/
def escapeByte (n : Nat) : String :=
  if byteUnescaped n then String.singleton (Char.ofNat n)
  else if n = 32 then "+"
  else "%" ++ String.singleton (hexDigitChar (n / 16)) ++
       String.singleton (hexDigitChar (n % 16))

/-- Go `url.QueryEscape` over the UTF-8 bytes of the string. -/
def queryEscape (s : String) : String :=
  String.join (s.data.map (fun c => String.join ((utf8Bytes c).map escapeByte)))

/-- The `{code, token, email}` the middleware reads off the remote
response: status code, `x-access-token` and `x-email` headers (absent
headers read as `""` via `Header.Get`). -/
structure RemoteAuthResponse where
  code : Nat
  token : String
  email : String
  deriving DecidableEq, Repr

/-- One HTTP request the middleware issues against the Will.IAM
server: the GET url and the forwarded `Authorization` header. -/
structure IssuedRequest where
  url : String
  authorization : String
  deriving DecidableEq, Repr

/-- Outcome of `Middleware.ServeHTTP`: either the downstream handler is
invoked (with the response headers set beforehand) or the request is
denied with a status code. -/
inductive MWOutcome where
  | nextCalled : List (String × String) → MWOutcome
  | denied : Nat → MWOutcome
  deriving DecidableEq, Repr

/-- `accessTokenFromHeader` — the first space-separated part of the
`Authorization` header (`strings.Split` never returns an empty slice,
so the `len(parts) < 1` guard in the source is dead). -/
def accessTokenFromHeader (authHeader : String) : String :=
  match goSplitChar ' ' authHeader with
  | [] => ""
  | p :: _ => p

/-- `permission.build` — `service::ownershipLevel::action::resource`. -/
def permissionBuild (service ownershipLevel action resource : String) : String :=
  service ++ "::" ++ ownershipLevel ++ "::" ++ action ++ "::" ++ resource

/-- The url `getAuthStatus` requests:
`<iamURL>/permissions/has?permission=<url-escaped permission>`. -/
def getAuthStatusURL (iamURL permission : String) : String :=
  iamURL ++ "/permissions/has?permission=" ++ queryEscape permission

/-- `Middleware.ServeHTTP` — when disabled, call the downstream handler
directly.  Otherwise take the first space-separated part of the
`Authorization` header as the token (401 when empty, without any remote
call); issue the `getAuthStatus` GET with that token as the forwarded
`Authorization` header (500 on transport error); deny with the remote
status when it is not 200; on 200 echo `x-access-token` (only when
non-empty and different from the sent token) and `x-email` (when
non-empty) and call the downstream handler.  The second component lists
the requests issued against the Will.IAM server. -/
def ServeHTTP (enabled : Bool) (iamURL : String) (permission : String)
    (remote : IssuedRequest → Except Err RemoteAuthResponse)
    (authHeader : String) : MWOutcome × List IssuedRequest :=
  if !enabled then (.nextCalled [], [])
  else
    let token := accessTokenFromHeader authHeader
    if token = "" then (.denied 401, [])
    else
      let req : IssuedRequest :=
        { url := getAuthStatusURL iamURL permission, authorization := token }
      match remote req with
      | .error _ => (.denied 500, [req])
      | .ok st =>
        if st.code ≠ 200 then (.denied st.code, [req])
        else
          let hs₁ :=
            if st.token ≠ "" && st.token ≠ token then
              [("x-access-token", st.token)] else []
          let hs₂ := if st.email ≠ "" then [("x-email", st.email)] else []
          (.nextCalled (hs₁ ++ hs₂), [req])

/-- A viper configuration value. -/
inductive ConfigVal where
  | boolVal : Bool → ConfigVal
  | strVal : String → ConfigVal
  | natVal : Nat → ConfigVal
  deriving DecidableEq, Repr

/-- The viper configuration: explicitly-set entries shadow defaults. -/
structure Config where
  entries : List (String × ConfigVal) := []
  defaults : List (String × ConfigVal) := []
  deriving DecidableEq, Repr

/-- `viper.SetDefault` — (re)register a default for a key. -/
def Config.SetDefault (c : Config) (k : String) (v : ConfigVal) : Config :=
  { c with defaults := (k, v) :: c.defaults.filter (fun kv => kv.fst ≠ k) }

/-- Key lookup in an association list. -/
def lookupKey (l : List (String × ConfigVal)) (k : String) : Option ConfigVal :=
  (l.find? (fun kv => kv.fst = k)).map (fun kv => kv.snd)

/-- Resolve a key: explicit entry first, then default. -/
def Config.get (c : Config) (k : String) : Option ConfigVal :=
  match lookupKey c.entries k with
  | some v => some v
  | none => lookupKey c.defaults k

/-- `viper.GetBool` — false when unset or not a boolean. -/
def Config.GetBool (c : Config) (k : String) : Bool :=
  match c.get k with
  | some (.boolVal b) => b
  | _ => false

/-- `viper.GetString` — empty when unset or not a string. -/
def Config.GetString (c : Config) (k : String) : String :=
  match c.get k with
  | some (.strVal v) => v
  | _ => ""

/-- `configure` — the six `SetDefault` calls of the source; in
particular `william.enabled` defaults to `false` and `william.url` to
`http://localhost:4040`. -/
def configure (c : Config) : Config :=
  ((((((c.SetDefault "william.http.maxIdleConnsPerHost" (.natVal 2)).SetDefault
      "william.http.maxIdleConns" (.natVal 100)).SetDefault
      "william.http.timeout" (.natVal 500)).SetDefault
      "william.url" (.strVal "http://localhost:4040")).SetDefault
      "william.enabled" (.boolVal false)).SetDefault
      "william.permission.service" (.strVal "service"))

/-- The fields of the `Middleware` struct that `NewMiddleware` fills
from the configuration. -/
structure MiddlewareCfg where
  service : String
  ownershipLevel : String
  action : String
  iamURL : String
  enabled : Bool
  deriving DecidableEq, Repr

/-- `NewMiddleware` — run `configure` and read the permission service,
Will.IAM url and enabled flag from the configuration. -/
def NewMiddleware (config : Config) (ownershipLevel action : String) :
    MiddlewareCfg :=
  let c := configure config
  { service := c.GetString "william.permission.service",
    ownershipLevel := ownershipLevel, action := action,
    iamURL := c.GetString "william.url",
    enabled := c.GetBool "william.enabled" }

/-- `Middleware.ServeHTTP` on a configured middleware instance: the
permission string is built from the instance fields and the resource
extracted from the request. -/
def MiddlewareServeHTTP (m : MiddlewareCfg) (resource : String)
    (remote : IssuedRequest → Except Err RemoteAuthResponse)
    (authHeader : String) : MWOutcome × List IssuedRequest :=
  ServeHTTP m.enabled m.iamURL
    (permissionBuild m.service m.ownershipLevel m.action resource)
    remote authHeader

/-- The role ids an account is bound to in a state (observation used to
state role-membership properties). -/
def boundRoleIDs (s : State) (saID : String) : List String :=
  (s.roleBindings.filter (fun b => b.serviceAccountID = saID)).map
    (fun b => b.roleID)

/-! ## Helper lemmas -/

/-- `all id` over a mapped list is `all` of the function. -/
theorem all_id_map {α : Type} (f : α → Bool) (l : List α) :
    (l.map f).all id = l.all f := by
  induction l with
  | nil => rfl
  | cons x rest ih => simp [ih]

/-- The early-exit loop computes `List.all`. -/
theorem allTrueLoop_eq_all (l : List Bool) : allTrueLoop l = l.all id := by
  induction l with
  | nil => rfl
  | cons b rest ih =>
      cases b <;> simp [allTrueLoop, ih]

/-- `HasAllOwnerPermissions` computes: every requested permission,
raised to Owner, is present in the aggregated permission set. -/
theorem hasAllOwnerPermissions_eq (saID : String) (ps : List Permission)
    (s : State) :
    HasAllOwnerPermissions saID ps s =
      .ok (ps.all (fun p =>
        p.asOwner.IsPresent (Repo.permissionsForServiceAccount saID s))) := by
  unfold HasAllOwnerPermissions HasPermissions GetPermissions
  simp only [allTrueLoop_eq_all]
  congr 1
  rw [all_id_map, List.all_map]
  rfl

/-- `IsPresent` ignores the alias field. -/
theorem isPresent_asOwner_aliasStr (p : Permission) (a : String)
    (held : List Permission) :
    Permission.IsPresent (Permission.asOwner { p with aliasStr := a }) held =
      Permission.IsPresent p.asOwner held := by
  simp [Permission.IsPresent, Permission.asOwner, permissionSatisfies]

/-- Alias application changes no field `IsPresent` looks at. -/
theorem applyAliases_all_isPresent (al : List (String × String))
    (held : List Permission) :
    ∀ (strs : List String) (ps : List Permission),
      (applyAliases al strs ps).all (fun p => p.asOwner.IsPresent held) =
        ps.all (fun p => p.asOwner.IsPresent held) := by
  intro strs
  induction strs with
  | nil => intro ps; cases ps <;> rfl
  | cons str rest ih =>
      intro ps
      cases ps with
      | nil => rfl
      | cons p ptail =>
          simp only [applyAliases, List.all_cons, ih]
          cases h : lookupAlias al str <;>
            simp [isPresent_asOwner_aliasStr]

/-! ## Claims -/

/-- C2: for every service account ID and every list of requested
permissions, `HasAllOwnerPermissions` returns (without error) a boolean
that is true iff each requested permission, with its ownershipLevel
replaced by Owner, is satisfied via `IsPresent` by the account's
aggregated permission set; equivalently it is false exactly when some
such check fails. -/
theorem C2_hasAllOwnerPermissions_owner_check (saID : String)
    (ps : List Permission) (s : State) :
    ∃ b, HasAllOwnerPermissions saID ps s = .ok b ∧
      (b = true ↔ ∀ p ∈ ps,
        p.asOwner.IsPresent (Repo.permissionsForServiceAccount saID s) = true) := by
  refine ⟨_, hasAllOwnerPermissions_eq saID ps s, ?_⟩
  simp [List.all_eq_true]

/-- C1: for every create request whose inline permission strings parse,
if some permission attached to a requested role or some inline
permission is not held at Owner level by the acting account, then
`processServiceAccountWithNestedFromReq` rejects with the
insufficient-permission error, the create handler answers 403, and the
storage state is unchanged (no service account is created). -/
theorem C1_create_rejected_without_owner_grants
    (actorID pathID : String) (req : ServiceAccountWithNested) (s : State)
    (ps : List Permission)
    (hbuild : BuildPermissions req.permissionsStrings = .ok ps)
    (hins : ∃ p ∈ rolesPermissionsConcat req.rolesIDs s ++ ps,
      p.asOwner.IsPresent (Repo.permissionsForServiceAccount actorID s) = false) :
    processServiceAccountWithNestedFromReq actorID req s =
      .error .userDoesntHaveAllPermissions
    ∧ serviceAccountsCreateHandler actorID req pathID s = (403, s) := by
  have key : processServiceAccountWithNestedFromReq actorID req s =
      .error .userDoesntHaveAllPermissions := by
    obtain ⟨p, hp, hfalse⟩ := hins
    unfold processServiceAccountWithNestedFromReq HasAllOwnerRolesPermissions
    rcases List.mem_append.mp hp with hroles | hps
    · have hall : (rolesPermissionsConcat req.rolesIDs s).all
          (fun p => p.asOwner.IsPresent
            (Repo.permissionsForServiceAccount actorID s)) = false := by
        rw [List.all_eq_false]
        exact ⟨p, hroles, by simp [hfalse]⟩
      rw [hasAllOwnerPermissions_eq, hall]
      simp
    · cases hall : (rolesPermissionsConcat req.rolesIDs s).all
          (fun p => p.asOwner.IsPresent
            (Repo.permissionsForServiceAccount actorID s)) with
      | false => rw [hasAllOwnerPermissions_eq, hall]; simp
      | true =>
          rw [hasAllOwnerPermissions_eq, hall]
          simp only [Bool.not_true, Bool.false_eq_true, if_false, ite_false]
          rw [hbuild]
          simp only []
          rw [hasAllOwnerPermissions_eq, applyAliases_all_isPresent]
          have hpsall : ps.all
              (fun p => p.asOwner.IsPresent
                (Repo.permissionsForServiceAccount actorID s)) = false := by
            rw [List.all_eq_false]
            exact ⟨p, hps, by simp [hfalse]⟩
          rw [hpsall]
          simp
  refine ⟨key, ?_⟩
  unfold serviceAccountsCreateHandler
  rw [key]
  rfl

/-- C1 witness: an account holding only `svc::Lender::act::res` is
answered 403 with no account created when it tries to create an account
with inline permission `svc::Owner::act::res`. -/
theorem C1_create_rejected_without_owner_grants_witness :
    BuildPermissions ["svc::Owner::act::res"] =
      .ok [{ roleID := "", service := "svc", ownershipLevel := .owner,
             action := "act", resource := "res", aliasStr := "" }]
    ∧ serviceAccountsCreateHandler "actor"
        { name := "n", email := "e@x", authenticationType := "oauth2",
          permissionsStrings := ["svc::Owner::act::res"] } "pid"
        { serviceAccounts := [{ id := "actor", baseRoleID := "brA" }],
          roles := [{ id := "brA", name := "service-account:actor",
                      isBaseRole := true }],
          roleBindings := [{ serviceAccountID := "actor", roleID := "brA" }],
          permissions := [{ roleID := "brA", service := "svc",
                            ownershipLevel := .lender, action := "act",
                            resource := "res", aliasStr := "" }] } =
        (403,
         { serviceAccounts := [{ id := "actor", baseRoleID := "brA" }],
           roles := [{ id := "brA", name := "service-account:actor",
                       isBaseRole := true }],
           roleBindings := [{ serviceAccountID := "actor", roleID := "brA" }],
           permissions := [{ roleID := "brA", service := "svc",
                             ownershipLevel := .lender, action := "act",
                             resource := "res", aliasStr := "" }] }) :=
  ⟨by decide,
   (C1_create_rejected_without_owner_grants "actor" "pid"
      { name := "n", email := "e@x", authenticationType := "oauth2",
        permissionsStrings := ["svc::Owner::act::res"] }
      { serviceAccounts := [{ id := "actor", baseRoleID := "brA" }],
        roles := [{ id := "brA", name := "service-account:actor",
                    isBaseRole := true }],
        roleBindings := [{ serviceAccountID := "actor", roleID := "brA" }],
        permissions := [{ roleID := "brA", service := "svc",
                          ownershipLevel := .lender, action := "act",
                          resource := "res", aliasStr := "" }] }
      [{ roleID := "", service := "svc", ownershipLevel := .owner,
         action := "act", resource := "res", aliasStr := "" }]
      (by decide) (by decide)).2⟩

/-- A transaction that fails leaves the caller's state unchanged. -/
theorem withPGTx_error_rollback (fn : State → Except Err State) (s : State)
    (e : Err) (h : (Repo.WithPGTx fn s).1 = .error e) :
    (Repo.WithPGTx fn s).2 = s := by
  unfold Repo.WithPGTx at h ⊢
  cases hfn : fn s <;> simp [hfn] at h ⊢

/-- Setting the role id does not change a permission's canonical
string. -/
theorem permissionString_roleID (p : Permission) (r : String) :
    ({ p with roleID := r } : Permission).String = p.String := rfl

/-- `createServiceAccount` always succeeds and does not touch the
injected-failure set. -/
theorem createServiceAccount_ok (sa : ServiceAccount) (s : State) :
    ∃ sa₁ s₁, createServiceAccount sa s = .ok (sa₁, s₁) ∧
      s₁.failPerms = s.failPerms := ⟨_, _, rfl, rfl⟩

/-- `bindRolesLoop` always succeeds and does not touch the
injected-failure set. -/
theorem bindRolesLoop_ok (saID : String) :
    ∀ (rs : List String) (s : State),
      ∃ s₁, bindRolesLoop saID rs s = .ok s₁ ∧ s₁.failPerms = s.failPerms := by
  intro rs
  induction rs with
  | nil => intro s; exact ⟨s, rfl, rfl⟩
  | cons r rest ih =>
      intro s
      obtain ⟨s₁, h₁, h₂⟩ := ih (Repo.rolesBind { serviceAccountID := saID, roleID := r } s)
      exact ⟨s₁, h₁, h₂⟩

/-- If some permission of the list is in the injected-failure set, the
permission-creation loop fails. -/
theorem createPermissionsLoop_mem_fail (rid : String) :
    ∀ (ps : List Permission) (s : State) (p : Permission),
      p ∈ ps → p.String ∈ s.failPerms →
      ∃ e, createPermissionsLoop rid ps s = .error e := by
  intro ps
  induction ps with
  | nil => intro s p hp; exact absurd hp (List.not_mem_nil p)
  | cons q rest ih =>
      intro s p hp hf
      by_cases hq : ({ q with roleID := rid } : Permission).String ∈ s.failPerms
      · refine ⟨.storageFailure ("permission create failed: " ++
          ({ q with roleID := rid } : Permission).String), ?_⟩
        unfold createPermissionsLoop Repo.permissionsCreate
        simp [hq]
      · rcases List.mem_cons.mp hp with rfl | hrest
        · rw [permissionString_roleID] at hq
          exact absurd hf hq
        · obtain ⟨e, he⟩ :=
            ih { s with permissions := s.permissions ++ [{ q with roleID := rid }] }
              p hrest hf
          refine ⟨e, ?_⟩
          unfold createPermissionsLoop Repo.permissionsCreate
          simp [hq, he]

/-- C3: `CreateWithNested` and `UpdateWithNested` are atomic — whenever
either returns an error, the storage state afterward is exactly the
prior state (no half-written account, base role, binding or permission
survives); and a failure injected on any requested permission (such as
the third of three) makes `CreateWithNested` abort this way. -/
theorem C3_createWithNested_updateWithNested_atomic :
    (∀ (sawn : ServiceAccountWithNested) (s : State) (e : Err),
        (CreateWithNested sawn s).1 = .error e → (CreateWithNested sawn s).2 = s)
    ∧ (∀ (sawn : ServiceAccountWithNested) (s : State) (e : Err),
        (UpdateWithNested sawn s).1 = .error e → (UpdateWithNested sawn s).2 = s)
    ∧ (∀ (sawn : ServiceAccountWithNested) (s : State) (p : Permission),
        authenticationTypeValid sawn.authenticationType = true →
        p ∈ sawn.permissions → p.String ∈ s.failPerms →
        ∃ e, CreateWithNested sawn s = (.error e, s)) := by
  refine ⟨?_, ?_, ?_⟩
  · intro sawn s e h
    exact withPGTx_error_rollback _ s e h
  · intro sawn s e h
    exact withPGTx_error_rollback _ s e h
  · intro sawn s p hvalid hp hf
    have hbody : ∃ e, (fun s₀ =>
        (let saOpt : Option ServiceAccount :=
          if sawn.authenticationType = AuthenticationTypes.OAuth2 then
            some (BuildOAuth2ServiceAccount sawn.name sawn.email)
          else if sawn.authenticationType = AuthenticationTypes.KeyPair then
            some (BuildKeyPairServiceAccount sawn.name)
          else none
        match saOpt with
        | none => .error (.goPanic "nil ServiceAccount dereference in CreateWithNested")
        | some sa₀ =>
          match createServiceAccount sa₀ s₀ with
          | .error e => .error e
          | .ok (sa, s₁) =>
            match bindRolesLoop sa.id sawn.rolesIDs s₁ with
            | .error e => .error e
            | .ok s₂ => createPermissionsLoop sa.baseRoleID sawn.permissions s₂
          : Except Err State)) s = .error e := by
      have hdisj : sawn.authenticationType = AuthenticationTypes.OAuth2 ∨
          sawn.authenticationType = AuthenticationTypes.KeyPair := by
        simpa [authenticationTypeValid] using hvalid
      have hcases :
          (if sawn.authenticationType = AuthenticationTypes.OAuth2 then
            some (BuildOAuth2ServiceAccount sawn.name sawn.email)
          else if sawn.authenticationType = AuthenticationTypes.KeyPair then
            some (BuildKeyPairServiceAccount sawn.name)
          else none) ≠ (none : Option ServiceAccount) := by
        by_cases h₁ : sawn.authenticationType = AuthenticationTypes.OAuth2
        · simp [h₁]
        · have h₂ : sawn.authenticationType = AuthenticationTypes.KeyPair := by
            rcases hdisj with hx | hx
            · exact absurd hx h₁
            · exact hx
          rw [if_neg h₁, if_pos h₂]
          simp
      match hopt : (if sawn.authenticationType = AuthenticationTypes.OAuth2 then
            some (BuildOAuth2ServiceAccount sawn.name sawn.email)
          else if sawn.authenticationType = AuthenticationTypes.KeyPair then
            some (BuildKeyPairServiceAccount sawn.name)
          else none) with
      | none => exact absurd hopt hcases
      | some sa₀ =>
          obtain ⟨sa₁, s₁, hcsa, hfp₁⟩ := createServiceAccount_ok sa₀ s
          obtain ⟨s₂, hbind, hfp₂⟩ := bindRolesLoop_ok sa₁.id sawn.rolesIDs s₁
          obtain ⟨e, he⟩ := createPermissionsLoop_mem_fail sa₁.baseRoleID
            sawn.permissions s₂ p hp (by rw [hfp₂, hfp₁]; exact hf)
          refine ⟨e, ?_⟩
          simp only [hopt, hcsa, hbind, he]
    obtain ⟨e, he⟩ := hbody
    refine ⟨e, ?_⟩
    unfold CreateWithNested Repo.WithPGTx
    rw [he]

/-- C3 witness: creating an account with three inline permissions where
attaching the third fails aborts the transaction and leaves the prior
(here empty) storage state unchanged. -/
theorem C3_createWithNested_updateWithNested_atomic_witness :
    authenticationTypeValid "keypair" = true
    ∧ ({ roleID := "", service := "svc", ownershipLevel := .owner,
         action := "act", resource := "r3", aliasStr := "" } : Permission) ∈
        ([{ roleID := "", service := "svc", ownershipLevel := .owner,
            action := "act", resource := "r1", aliasStr := "" },
          { roleID := "", service := "svc", ownershipLevel := .owner,
            action := "act", resource := "r2", aliasStr := "" },
          { roleID := "", service := "svc", ownershipLevel := .owner,
            action := "act", resource := "r3", aliasStr := "" }] : List Permission)
    ∧ Permission.String
        { roleID := "", service := "svc", ownershipLevel := .owner,
          action := "act", resource := "r3", aliasStr := "" } ∈
        ({ failPerms := ["svc::Owner::act::r3"] } : State).failPerms
    ∧ ∃ e, CreateWithNested
        { name := "n", authenticationType := "keypair",
          permissions :=
            [{ roleID := "", service := "svc", ownershipLevel := .owner,
               action := "act", resource := "r1", aliasStr := "" },
             { roleID := "", service := "svc", ownershipLevel := .owner,
               action := "act", resource := "r2", aliasStr := "" },
             { roleID := "", service := "svc", ownershipLevel := .owner,
               action := "act", resource := "r3", aliasStr := "" }] }
        { failPerms := ["svc::Owner::act::r3"] } =
        (.error e, { failPerms := ["svc::Owner::act::r3"] }) :=
  ⟨by decide, by decide, by decide,
   C3_createWithNested_updateWithNested_atomic.2.2
     { name := "n", authenticationType := "keypair",
       permissions :=
         [{ roleID := "", service := "svc", ownershipLevel := .owner,
            action := "act", resource := "r1", aliasStr := "" },
          { roleID := "", service := "svc", ownershipLevel := .owner,
            action := "act", resource := "r2", aliasStr := "" },
          { roleID := "", service := "svc", ownershipLevel := .owner,
            action := "act", resource := "r3", aliasStr := "" }] }
     { failPerms := ["svc::Owner::act::r3"] }
     { roleID := "", service := "svc", ownershipLevel := .owner,
       action := "act", resource := "r3", aliasStr := "" }
     (by decide) (by decide) (by decide)⟩

/-- The rebind loop appends one binding per requested non-base role, in
order, and touches nothing else. -/
theorem bindRolesSkipBase_eq (B said : String) :
    ∀ (rs : List String) (s : State),
      bindRolesSkipBaseLoop B said rs s =
        .ok { s with roleBindings := s.roleBindings ++
          ((rs.filter (fun r => !(r = B))).map
            (fun r => { serviceAccountID := said, roleID := r })) } := by
  intro rs
  induction rs with
  | nil => intro s; simp [bindRolesSkipBaseLoop]
  | cons r rest ih =>
      intro s
      unfold bindRolesSkipBaseLoop
      by_cases hr : r = B
      · simp [hr, ih]
      · simp [hr, ih, Repo.rolesBind]

/-- A successful permission-creation loop changes only the permission
rows. -/
theorem createPermissionsLoop_ok_rest (rid : String) :
    ∀ (ps : List Permission) (s s₁ : State),
      createPermissionsLoop rid ps s = .ok s₁ →
      s₁.roleBindings = s.roleBindings ∧ s₁.serviceAccounts = s.serviceAccounts
      ∧ s₁.roles = s.roles := by
  intro ps
  induction ps with
  | nil =>
      intro s s₁ h
      unfold createPermissionsLoop at h
      injection h with h
      rw [← h]
      exact ⟨rfl, rfl, rfl⟩
  | cons q rest ih =>
      intro s s₁ h
      unfold createPermissionsLoop Repo.permissionsCreate at h
      by_cases hq : ({ q with roleID := rid } : Permission).String ∈ s.failPerms
      · rw [if_pos hq] at h
        cases h
      · rw [if_neg hq] at h
        have h' : createPermissionsLoop rid rest
            { s with permissions :=
                s.permissions ++ [{ q with roleID := rid }] } = .ok s₁ := h
        obtain ⟨h₁, h₂, h₃⟩ :=
          ih { s with permissions := s.permissions ++ [{ q with roleID := rid }] }
            s₁ h'
        exact ⟨h₁, h₂, h₃⟩

/-- Evaluate the `UpdateWithNested` transaction body down to its final
permission-creation loop when the account exists. -/
theorem updateWithNested_eval (sawn : ServiceAccountWithNested) (s : State)
    (sa : ServiceAccount)
    (hget : Repo.serviceAccountsGet sawn.id s = .ok sa)
    (hany : s.serviceAccounts.any (fun x => x.id = sa.id) = true) :
    UpdateWithNested sawn s =
      (let sa₁ : ServiceAccount :=
        { sa with name := sawn.name, email := sawn.name }
       let updSAs : List ServiceAccount :=
         s.serviceAccounts.map (fun x => if x.id = sa₁.id then sa₁ else x)
       let sU : State := { s with serviceAccounts := updSAs }
       let s₂ : State := Repo.serviceAccountsDropBindings sawn.id sU
       let newBs : List RoleBinding :=
         (sawn.rolesIDs.filter (fun r => !(r = sa₁.baseRoleID))).map
           (fun r => { serviceAccountID := sa₁.id, roleID := r })
       let sB : State := { s₂ with roleBindings := s₂.roleBindings ++ newBs }
       let s₄ : State := Repo.rolesDropPermissions sa₁.baseRoleID sB
       match createPermissionsLoop sa₁.baseRoleID sawn.permissions s₄ with
       | .ok sF => (.ok (), sF)
       | .error e => (.error e, s)) := by
  unfold UpdateWithNested Repo.WithPGTx Repo.serviceAccountsUpdate
  simp only [hget, hany, if_true, bindRolesSkipBase_eq]

/-- Reading the role ids back from freshly-made bindings gives the
bound list. -/
theorem map_roleID_mk (said : String) (l : List String) :
    (l.map (fun r => ({ serviceAccountID := said, roleID := r } : RoleBinding))).map
      (fun b => b.roleID) = l := by
  induction l with
  | nil => rfl
  | cons r rest ih => simp [ih]

/-- C4: a successful `UpdateWithNested` replaces role membership: when
the account exists and its only base-role binding is its own base role,
the bound roles afterward are exactly the base role followed by the
requested roles with the base role filtered out — previously bound
non-base roles are gone, the base-role binding is kept, and the base
role is not re-bound. -/
theorem C4_updateWithNested_replaces_role_bindings
    (sawn : ServiceAccountWithNested) (s s' : State) (sa : ServiceAccount)
    (hget : Repo.serviceAccountsGet sawn.id s = .ok sa)
    (hbase : (s.roleBindings.filter (fun b =>
        b.serviceAccountID = sawn.id && Repo.isBaseRoleID b.roleID s)).map
        (fun b => b.roleID) = [sa.baseRoleID])
    (hud : UpdateWithNested sawn s = (.ok (), s')) :
    boundRoleIDs s' sawn.id =
      sa.baseRoleID :: sawn.rolesIDs.filter (fun r => !(r = sa.baseRoleID)) := by
  have hfind : s.serviceAccounts.find? (fun x => x.id = sawn.id) = some sa := by
    unfold Repo.serviceAccountsGet at hget
    cases hf : s.serviceAccounts.find? (fun x => x.id = sawn.id) with
    | none => rw [hf] at hget; cases hget
    | some x =>
        rw [hf] at hget
        injection hget with hx
        rw [hx]
  have hsaid : sa.id = sawn.id := by
    have hp := List.find?_some hfind
    simpa using hp
  have hmem : sa ∈ s.serviceAccounts := List.mem_of_find?_eq_some hfind
  have hany : s.serviceAccounts.any (fun x => x.id = sa.id) = true :=
    List.any_eq_true.mpr ⟨sa, hmem, by simp⟩
  rw [updateWithNested_eval sawn s sa hget hany] at hud
  simp only [] at hud
  split at hud
  case _ sF heq =>
    injection hud with h₁ h₂
    subst h₂
    have hrb : sF.roleBindings =
        (s.roleBindings.filter (fun b =>
          !(b.serviceAccountID = sawn.id) || Repo.isBaseRoleID b.roleID s)) ++
        (sawn.rolesIDs.filter (fun r => !(r = sa.baseRoleID))).map
          (fun r => { serviceAccountID := sa.id, roleID := r }) :=
      (createPermissionsLoop_ok_rest _ _ _ _ heq).1
    unfold boundRoleIDs
    rw [hrb, List.filter_append, List.map_append]
    have hA : (List.filter (fun b => decide (b.serviceAccountID = sawn.id))
        (List.filter (fun b => !decide (b.serviceAccountID = sawn.id) ||
          Repo.isBaseRoleID b.roleID s) s.roleBindings)) =
        List.filter (fun b => decide (b.serviceAccountID = sawn.id) &&
          Repo.isBaseRoleID b.roleID s) s.roleBindings := by
      rw [List.filter_filter]
      apply List.filter_congr
      intro b _
      cases hx : (decide (b.serviceAccountID = sawn.id)) <;>
        cases hy : Repo.isBaseRoleID b.roleID s <;> simp [hx, hy]
    have hB : List.filter (fun b => decide (b.serviceAccountID = sawn.id))
        (List.map (fun r => ({ serviceAccountID := sa.id, roleID := r } : RoleBinding))
          (List.filter (fun r => !decide (r = sa.baseRoleID)) sawn.rolesIDs)) =
        List.map (fun r => ({ serviceAccountID := sa.id, roleID := r } : RoleBinding))
          (List.filter (fun r => !decide (r = sa.baseRoleID)) sawn.rolesIDs) := by
      rw [List.filter_eq_self]
      intro b hb
      obtain ⟨r, hr, rfl⟩ := List.mem_map.mp hb
      simp [hsaid]
    rw [hA, hB, hbase, map_roleID_mk]
    rfl
  case _ e heq => simp at hud

/-- C4 witness: updating an account bound to `{base, R1, R2}` with the
requested set `{R2, R3}` leaves exactly `{base, R2, R3}` bound. -/
theorem C4_updateWithNested_replaces_role_bindings_witness :
    Repo.serviceAccountsGet "sa1"
      { serviceAccounts := [{ id := "sa1", name := "old", email := "old@x",
                              authenticationType := "oauth2", baseRoleID := "B" }],
        roles := [{ id := "B", name := "base", isBaseRole := true },
                  { id := "R1" }, { id := "R2" }, { id := "R3" }],
        roleBindings := [{ serviceAccountID := "sa1", roleID := "B" },
                         { serviceAccountID := "sa1", roleID := "R1" },
                         { serviceAccountID := "sa1", roleID := "R2" }] } =
      .ok { id := "sa1", name := "old", email := "old@x",
            authenticationType := "oauth2", baseRoleID := "B" }
    ∧ boundRoleIDs
        (UpdateWithNested
          { id := "sa1", name := "Alice", email := "alice@x",
            rolesIDs := ["R2", "R3"], authenticationType := "oauth2" }
          { serviceAccounts := [{ id := "sa1", name := "old", email := "old@x",
                                  authenticationType := "oauth2", baseRoleID := "B" }],
            roles := [{ id := "B", name := "base", isBaseRole := true },
                      { id := "R1" }, { id := "R2" }, { id := "R3" }],
            roleBindings := [{ serviceAccountID := "sa1", roleID := "B" },
                             { serviceAccountID := "sa1", roleID := "R1" },
                             { serviceAccountID := "sa1", roleID := "R2" }] }).2
        "sa1" = ["B", "R2", "R3"] := by
  constructor
  · decide
  · have h := C4_updateWithNested_replaces_role_bindings
      { id := "sa1", name := "Alice", email := "alice@x",
        rolesIDs := ["R2", "R3"], authenticationType := "oauth2" }
      { serviceAccounts := [{ id := "sa1", name := "old", email := "old@x",
                              authenticationType := "oauth2", baseRoleID := "B" }],
        roles := [{ id := "B", name := "base", isBaseRole := true },
                  { id := "R1" }, { id := "R2" }, { id := "R3" }],
        roleBindings := [{ serviceAccountID := "sa1", roleID := "B" },
                         { serviceAccountID := "sa1", roleID := "R1" },
                         { serviceAccountID := "sa1", roleID := "R2" }] }
      (UpdateWithNested
        { id := "sa1", name := "Alice", email := "alice@x",
          rolesIDs := ["R2", "R3"], authenticationType := "oauth2" }
        { serviceAccounts := [{ id := "sa1", name := "old", email := "old@x",
                                authenticationType := "oauth2", baseRoleID := "B" }],
          roles := [{ id := "B", name := "base", isBaseRole := true },
                    { id := "R1" }, { id := "R2" }, { id := "R3" }],
          roleBindings := [{ serviceAccountID := "sa1", roleID := "B" },
                           { serviceAccountID := "sa1", roleID := "R1" },
                           { serviceAccountID := "sa1", roleID := "R2" }] }).2
      { id := "sa1", name := "old", email := "old@x",
        authenticationType := "oauth2", baseRoleID := "B" }
      (by decide) (by decide) (by decide)
    exact h.trans (by decide)

/-- C5: `UpdateWithNested` writes the submitted *name* into both the
name and the email columns (`sa.Email = sawn.Name` in the source):
updating with name `Alice` and email `alice@x` stores `("Alice",
"Alice")`, not the submitted email. -/
theorem C5_update_stores_submitted_name_in_email :
    ((UpdateWithNested
        { id := "sa1", name := "Alice", email := "alice@x",
          authenticationType := "oauth2" }
        { serviceAccounts := [{ id := "sa1", name := "old", email := "old@x",
                                authenticationType := "oauth2",
                                baseRoleID := "B" }],
          roles := [{ id := "B", name := "base", isBaseRole := true }],
          roleBindings := [{ serviceAccountID := "sa1",
                             roleID := "B" }] }).2.serviceAccounts.map
      (fun x => (x.name, x.email))) = [("Alice", "Alice")]
    ∧ ("Alice" : String) ≠ "alice@x" := by decide

/-- C6 (amended): a first-time OAuth2 login provisions exactly one new
ServiceAccount whose name and email are the provider-returned email and
whose picture is the provider-returned picture, and returns its id —
but the account's `authenticationType` is left at the Go zero value
(the empty string), not `OAuth2`, because the provisioning struct
literal never sets it. -/
theorem C6_first_login_provisions_account (ar : OAuth2AuthResult) (s : State)
    (hnf : Repo.serviceAccountsForEmail ar.email s = .error .entityNotFound) :
    ∃ sa s₁, AuthenticateAccessToken (.ok ar) s =
        (.ok { serviceAccountID := sa.id, accessToken := ar.accessToken,
               email := ar.email }, s₁)
      ∧ s₁.serviceAccounts = s.serviceAccounts ++ [sa]
      ∧ sa.name = ar.email ∧ sa.email = ar.email ∧ sa.picture = ar.picture
      ∧ sa.authenticationType = "" := by
  unfold AuthenticateAccessToken
  simp only [hnf]
  exact ⟨_, _, rfl, rfl, rfl, rfl, rfl, rfl⟩

/-- C6 witness: first login for `new@x.com` against empty storage. -/
theorem C6_first_login_provisions_account_witness :
    Repo.serviceAccountsForEmail "new@x.com" {} = .error .entityNotFound
    ∧ ∃ sa s₁,
        AuthenticateAccessToken
          (.ok { email := "new@x.com", accessToken := "t", picture := "p" })
          {} =
          (.ok { serviceAccountID := sa.id, accessToken := "t",
                 email := "new@x.com" }, s₁)
        ∧ s₁.serviceAccounts = ({} : State).serviceAccounts ++ [sa]
        ∧ sa.name = "new@x.com" ∧ sa.email = "new@x.com" ∧ sa.picture = "p"
        ∧ sa.authenticationType = "" :=
  ⟨by decide,
   C6_first_login_provisions_account
     { email := "new@x.com", accessToken := "t", picture := "p" } {}
     (by decide)⟩

/-- C6 counterexample: at the explicit first-login input the single
provisioned account's authentication type is the empty string, not
`oauth2` — the claim's `AuthenticationType = OAuth2` fails. -/
theorem C6_first_login_counterexample :
    ((AuthenticateAccessToken
        (.ok { email := "new@x.com", accessToken := "t", picture := "p" })
        {}).2.serviceAccounts.map (fun sa => sa.authenticationType)) = [""]
    ∧ ("" : String) ≠ AuthenticationTypes.OAuth2 := by decide

/-- C7 (amended): when a KeyPair-scheme request's (keyID, keySecret)
lookup fails — in particular with `EntityNotFoundError` — the
middleware responds 500 (not 401), the downstream handler is not
invoked, and no account is created (the state is unchanged). -/
theorem C7_keypair_not_found_responds_500 (header cred kid sec : String)
    (rest : List String) (s : State) (pr : Except Err OAuth2AuthResult)
    (hparts : goSplitChar ' ' header = ["KeyPair", cred])
    (hcred : goSplitChar ':' cred = kid :: sec :: rest)
    (hnf : Repo.serviceAccountsForKeyPair kid sec s = .error .entityNotFound) :
    authMiddleware header pr s = (.response 500, s) := by
  have hne : ¬(header = "") := by
    intro h
    rw [h, show goSplitChar ' ' "" = [""] from by decide] at hparts
    injection hparts with h1 h2
    cases h2
  unfold authMiddleware AuthenticateKeyPair
  simp only [hparts, hcred, hnf]
  simp [hne]

/-- C7 witness: `KeyPair kid:sec` against empty storage answers 500
with storage unchanged. -/
theorem C7_keypair_not_found_responds_500_witness :
    goSplitChar ' ' "KeyPair kid:sec" = ["KeyPair", "kid:sec"]
    ∧ goSplitChar ':' "kid:sec" = ["kid", "sec"]
    ∧ Repo.serviceAccountsForKeyPair "kid" "sec" {} = .error .entityNotFound
    ∧ authMiddleware "KeyPair kid:sec" (.error .entityNotFound) {} =
        (.response 500, {}) :=
  ⟨by decide, by decide, by decide,
   C7_keypair_not_found_responds_500 "KeyPair kid:sec" "kid:sec" "kid" "sec"
     [] {} (.error .entityNotFound) (by decide) (by decide) (by decide)⟩

/-- C7 counterexample: at the explicit input — header
`KeyPair kid:sec`, empty storage, so the key-pair lookup fails with
`EntityNotFoundError` — the middleware responds 500, not the claimed
401. -/
theorem C7_keypair_not_found_counterexample :
    authMiddleware "KeyPair kid:sec" (.error .entityNotFound) {} =
      (.response 500, {})
    ∧ (AuthMWOutcome.response 500) ≠ (AuthMWOutcome.response 401) := by decide

/-- C8 (amended): a missing Authorization header, a header that does
not split into exactly two space-separated parts, or an unrecognized
scheme is answered 401 without invoking the downstream handler; but a
`KeyPair` credential without a colon separator is not answered 401 —
the code indexes `keyPair[1]` out of range and panics (the downstream
handler is still never invoked). -/
theorem C8_auth_middleware_malformed_requests (header : String)
    (pr : Except Err OAuth2AuthResult) (s : State) :
    ((header = "" ∨ (goSplitChar ' ' header).length ≠ 2 ∨
      (∃ scheme cred, goSplitChar ' ' header = [scheme, cred] ∧
        scheme ≠ "Bearer" ∧ scheme ≠ "KeyPair")) →
      authMiddleware header pr s = (.response 401, s))
    ∧ (∀ cred, goSplitChar ' ' header = ["KeyPair", cred] →
        (goSplitChar ':' cred).length = 1 →
        authMiddleware header pr s =
          (.goPanic "index out of range: keyPair[1]", s)) := by
  constructor
  · intro h
    rcases h with h | h | ⟨scheme, cred, heq, hb, hk⟩
    · unfold authMiddleware
      simp [h]
    · unfold authMiddleware
      simp [h]
    · have hne : ¬(header = "") := by
        intro hh
        rw [hh, show goSplitChar ' ' "" = [""] from by decide] at heq
        injection heq with h1 h2
        cases h2
      unfold authMiddleware
      simp [heq, hne, hb, hk]
  · intro cred hparts hlen
    have hne : ¬(header = "") := by
      intro hh
      rw [hh, show goSplitChar ' ' "" = [""] from by decide] at hparts
      injection hparts with h1 h2
      cases h2
    cases hc : goSplitChar ':' cred with
    | nil => rw [hc] at hlen; simp at hlen
    | cons a t =>
        cases t with
        | nil =>
            unfold authMiddleware
            simp only [hparts, hc]
            simp [hne]
        | cons b t' =>
            rw [hc] at hlen
            simp at hlen

/-- C8 witness: `Basic x` is 401 with state unchanged; `KeyPair abc`
(no colon) panics instead of responding 401. -/
theorem C8_auth_middleware_malformed_requests_witness :
    authMiddleware "Basic x" (.error .entityNotFound) {} = (.response 401, {})
    ∧ authMiddleware "KeyPair abc" (.error .entityNotFound) {} =
        (.goPanic "index out of range: keyPair[1]", {}) :=
  ⟨(C8_auth_middleware_malformed_requests "Basic x" (.error .entityNotFound)
      {}).1 (.inr (.inr ⟨"Basic", "x", by decide, by decide, by decide⟩)),
   (C8_auth_middleware_malformed_requests "KeyPair abc" (.error .entityNotFound)
      {}).2 "abc" (by decide) (by decide)⟩

/-- C8 counterexample: at the explicit input `KeyPair abc` (credential
without a colon) the middleware does not respond 401 — it panics. -/
theorem C8_auth_middleware_malformed_counterexample :
    (authMiddleware "KeyPair abc" (.error .entityNotFound) ({} : State)).1 ≠
      .response 401
    ∧ (authMiddleware "KeyPair abc" (.error .entityNotFound) ({} : State)).1 =
      .goPanic "index out of range: keyPair[1]" := by decide

/-- C9 (amended): with the middleware enabled and a non-empty token —
the *first space-separated part* of the caller's Authorization header,
not the whole header — exactly one GET is issued against
`<iamURL>/permissions/has?permission=<url-escaped permission>` with
that token as the forwarded Authorization; the downstream handler runs
iff the remote status is 200; any other status denies with that status
and echoes nothing; on 200, `x-access-token` is echoed only when
non-empty and different from the sent token, and `x-email` when
non-empty. -/
theorem C9_remote_middleware_contract (iamURL perm header : String)
    (remote : IssuedRequest → Except Err RemoteAuthResponse)
    (st : RemoteAuthResponse)
    (htok : accessTokenFromHeader header ≠ "")
    (hrem : remote { url := getAuthStatusURL iamURL perm,
                     authorization := accessTokenFromHeader header } = .ok st) :
    (ServeHTTP true iamURL perm remote header).2 =
      [{ url := getAuthStatusURL iamURL perm,
         authorization := accessTokenFromHeader header }]
    ∧ ((∃ hs, (ServeHTTP true iamURL perm remote header).1 = .nextCalled hs) ↔
        st.code = 200)
    ∧ (st.code ≠ 200 →
        (ServeHTTP true iamURL perm remote header).1 = .denied st.code)
    ∧ (st.code = 200 →
        (ServeHTTP true iamURL perm remote header).1 = .nextCalled
          ((if st.token ≠ "" && st.token ≠ accessTokenFromHeader header then
              [("x-access-token", st.token)] else []) ++
           (if st.email ≠ "" then [("x-email", st.email)] else []))) := by
  by_cases hcode : st.code = 200
  · have hrun : ServeHTTP true iamURL perm remote header =
        (.nextCalled
          ((if st.token ≠ "" && st.token ≠ accessTokenFromHeader header then
              [("x-access-token", st.token)] else []) ++
           (if st.email ≠ "" then [("x-email", st.email)] else [])),
         [{ url := getAuthStatusURL iamURL perm,
            authorization := accessTokenFromHeader header }]) := by
      unfold ServeHTTP
      simp [htok, hrem, hcode]
    refine ⟨by rw [hrun], ?_, ?_, ?_⟩
    · rw [hrun]
      simp [hcode]
    · intro hne
      exact absurd hcode hne
    · intro _
      rw [hrun]
  · have hrun : ServeHTTP true iamURL perm remote header =
        (.denied st.code,
         [{ url := getAuthStatusURL iamURL perm,
            authorization := accessTokenFromHeader header }]) := by
      unfold ServeHTTP
      simp [htok, hrem, hcode]
    refine ⟨by rw [hrun], ?_, ?_, ?_⟩
    · rw [hrun]
      simp [hcode]
    · intro _
      rw [hrun]
    · intro h200
      exact absurd h200 hcode

/-- C9 witness: an allow round-trip — header `Bearer abc` (so the
forwarded token is `Bearer`), remote answering 200 with a new token and
an email. -/
theorem C9_remote_middleware_contract_witness :
    accessTokenFromHeader "Bearer abc" ≠ ""
    ∧ (ServeHTTP true "http://iam" "svc::RL::do::*"
        (fun _ => .ok { code := 200, token := "newtok", email := "e@x" })
        "Bearer abc").2 =
        [{ url := getAuthStatusURL "http://iam" "svc::RL::do::*",
           authorization := accessTokenFromHeader "Bearer abc" }]
    ∧ (ServeHTTP true "http://iam" "svc::RL::do::*"
        (fun _ => .ok { code := 200, token := "newtok", email := "e@x" })
        "Bearer abc").1 = .nextCalled
          [("x-access-token", "newtok"), ("x-email", "e@x")] := by
  have h := C9_remote_middleware_contract "http://iam" "svc::RL::do::*"
    "Bearer abc"
    (fun _ => .ok { code := 200, token := "newtok", email := "e@x" })
    { code := 200, token := "newtok", email := "e@x" }
    (by decide) rfl
  exact ⟨by decide, h.1, (h.2.2.2 rfl).trans (by decide)⟩

/-- C9 counterexample: with header `Bearer abc` the forwarded
Authorization is `Bearer`, not the unchanged header `Bearer abc`. -/
theorem C9_forwarded_header_counterexample :
    (ServeHTTP true "http://iam" "svc::RL::do::*"
      (fun _ => .ok { code := 200, token := "", email := "" })
      "Bearer abc").2 =
      [{ url := "http://iam/permissions/has?permission=svc%3A%3ARL%3A%3Ado%3A%3A%2A",
         authorization := "Bearer" }]
    ∧ ("Bearer" : String) ≠ "Bearer abc" := by decide

/-- C10: when `william.enabled` is not set — and its configured default
is false — the middleware built by `NewMiddleware` is disabled and
`ServeHTTP` forwards every request straight to the downstream handler,
issuing no request against the permission-check endpoint and reading
nothing from the Authorization header (the outcome is the same for
every header). -/
theorem C10_disabled_middleware_bypasses (cfg : Config)
    (ol act resource header : String)
    (remote : IssuedRequest → Except Err RemoteAuthResponse)
    (hunset : lookupKey cfg.entries "william.enabled" = none) :
    (NewMiddleware cfg ol act).enabled = false
    ∧ MiddlewareServeHTTP (NewMiddleware cfg ol act) resource remote header =
        (.nextCalled [], []) := by
  have hen : (NewMiddleware cfg ol act).enabled = false := by
    unfold NewMiddleware configure Config.GetBool Config.get Config.SetDefault
    simp only [hunset]
    simp +decide [lookupKey, List.find?, List.filter]
  refine ⟨hen, ?_⟩
  unfold MiddlewareServeHTTP ServeHTTP
  rw [hen]
  simp

/-- C10 witness: the empty configuration leaves `william.enabled`
unset, so the middleware forwards directly. -/
theorem C10_disabled_middleware_bypasses_witness :
    lookupKey ({} : Config).entries "william.enabled" = none
    ∧ (NewMiddleware {} "RL" "do").enabled = false
    ∧ MiddlewareServeHTTP (NewMiddleware {} "RL" "do") "res"
        (fun _ => .error (.storageFailure "unreachable")) "Bearer abc" =
        (.nextCalled [], []) :=
  ⟨rfl,
   (C10_disabled_middleware_bypasses {} "RL" "do" "res" "Bearer abc"
      (fun _ => .error (.storageFailure "unreachable")) rfl).1,
   (C10_disabled_middleware_bypasses {} "RL" "do" "res" "Bearer abc"
      (fun _ => .error (.storageFailure "unreachable")) rfl).2⟩

end WillIAM
